import Mathlib

/-!
Shallow embedding of the Mobile-library-api repository (Go, gin + postgres).

The repository has two versions of the same server: src/main.go and
src/unnamed/part_000. Both register five handlers (getSongs, getSongText,
createSong, updateSong, deleteSong). The get-text, create, update and delete
handlers are line-for-line identical between the two versions; the list
handler (getSongs) differs only in its limit-defaulting test
(main.go: limit <= 0, part_000: limit == 0), so both list versions are
embedded separately.

Modelling conventions:
* Go `int` is modelled as `Int` (pagination parameters come from query
  strings; no claim concerns 64-bit overflow).
* The gin query binding outcome is an `Except String Pagination` parameter;
  a binding failure is the 400 path of the handlers.
* The database is external: a handler receives the outcome of its single
  SQL statement as a parameter (the fetched text for get-text, a query
  function for list, the keyed row for update).
* `strings.Split(text, "\n\n")` is embedded as `splitNN` on the character
  list: Go splits on each leftmost non-overlapping instance of the
  separator, keeping empty segments.
* Go slice expressions `verses[start:end]` evaluate only when
  0 ≤ start ≤ end ≤ len(verses); otherwise the program faults at runtime
  (gin's Recovery middleware turns that fault into an HTTP 500). The fault
  is the `crash` constructor of the response type.
-/

/-- Pagination model (src/main.go lines 63-66, src/unnamed/part_000 lines
29-32): `Limit int`, `Page int`, bound from the query string. -/
structure Pagination where
  limit : Int
  page : Int
deriving DecidableEq, Repr

/-- Song row (src/main.go lines 32-60, src/unnamed/part_000 lines 19-27).
The nullable group name (`NullString` wrapper / `sql.NullString`) is
modelled as `Option String`: `none` is the absent (SQL NULL) value. -/
structure Song where
  id : Int
  title : String
  artist : String
  releaseDate : String
  text : String
  link : String
  groupName : Option String
deriving DecidableEq, Repr

/-- Go `strings.Split(s, "\n\n")` on the character list: split on each
leftmost non-overlapping occurrence of the two-newline separator, keeping
empty segments (src/main.go line 172, src/unnamed/part_000 line 101). -/
def splitNN : List Char → List (List Char)
  | [] => [[]]
  | '\n' :: '\n' :: rest => [] :: splitNN rest
  | c :: rest =>
    match splitNN rest with
    | [] => [[c]]
    | v :: vs => (c :: v) :: vs

/-- `verses := strings.Split(text, "\n\n")` (src/main.go line 172). -/
def splitVerses (s : String) : List String :=
  (splitNN s.data).map String.mk

/-- Effective (limit, offset) pair of src/main.go getSongs, lines 115-123:
page <= 0 becomes 1, limit <= 0 becomes 10, offset = (page-1)*limit. -/
def getSongs_params (p : Pagination) : Int × Int :=
  let page := if p.page ≤ 0 then 1 else p.page
  let limit := if p.limit ≤ 0 then 10 else p.limit
  (limit, (page - 1) * limit)

/-- Effective (limit, offset) pair of src/unnamed/part_000 getSongs, lines
61-69: page <= 0 becomes 1, limit == 0 becomes 10, offset = (page-1)*limit. -/
def getSongs_params_v2 (p : Pagination) : Int × Int :=
  let page := if p.page ≤ 0 then 1 else p.page
  let limit := if p.limit = 0 then 10 else p.limit
  (limit, (page - 1) * limit)

/-- List handler of src/main.go (getSongs, lines 107-133). The first
component is the HTTP status; the second is the JSON body, either the row
array (`Sum.inl`) or an error message (`Sum.inr`). `bind` is the outcome of
`c.ShouldBindQuery`; `dbQuery limit offset` is the outcome of
`db.Select("SELECT * FROM songs ORDER BY id LIMIT $1 OFFSET $2")`. -/
def getSongs_handler (bind : Except String Pagination)
    (dbQuery : Int → Int → Except String (List Song)) :
    Nat × (List Song ⊕ String) :=
  match bind with
  | .error e => (400, .inr e)
  | .ok p =>
    let lo := getSongs_params p
    match dbQuery lo.1 lo.2 with
    | .error _ => (500, .inr "Internal Server Error")
    | .ok rows => (200, .inl rows)

/-- List handler of src/unnamed/part_000 (getSongs, lines 52-79); identical
to the main.go handler except for the limit-defaulting test embedded in
`getSongs_params_v2`. -/
def getSongs_handler_v2 (bind : Except String Pagination)
    (dbQuery : Int → Int → Except String (List Song)) :
    Nat × (List Song ⊕ String) :=
  match bind with
  | .error e => (400, .inr e)
  | .ok p =>
    let lo := getSongs_params_v2 p
    match dbQuery lo.1 lo.2 with
    | .error _ => (500, .inr "Internal Server Error")
    | .ok rows => (200, .inl rows)

/-- Response of the get-text handler. `ok` is HTTP 200 with the verse
array, `notFound` is 404, `badRequest` is 400, and `crash` is the runtime
fault of an out-of-bounds slice expression, which gin's Recovery middleware
reports as HTTP 500. -/
inductive TextResponse where
  | badRequest (msg : String)
  | notFound (msg : String)
  | ok (verses : List String)
  | crash
deriving DecidableEq, Repr

/-- `start := (pagination.Page - 1) * pagination.Limit` (src/main.go line
173): no page or limit normalization happens in getSongText. -/
def getSongText_start (p : Pagination) : Int :=
  (p.page - 1) * p.limit

/-- `end := start + pagination.Limit` (src/main.go line 174). -/
def getSongText_end (p : Pagination) : Int :=
  getSongText_start p + p.limit

/-- Go slice expression `xs[lo:hi]`: defined when 0 ≤ lo ≤ hi ≤ len(xs),
a runtime fault otherwise. -/
def goSlice (xs : List String) (lo hi : Int) : TextResponse :=
  if 0 ≤ lo ∧ lo ≤ hi ∧ hi ≤ (xs.length : Int) then
    .ok ((xs.drop lo.toNat).take (hi - lo).toNat)
  else
    .crash

/-- Get-text handler (src/main.go getSongText lines 146-188,
src/unnamed/part_000 lines 80-112; the two versions are identical).
`bind` is the outcome of `c.ShouldBindQuery`; `fetched` is the outcome of
`db.Get("SELECT text FROM songs WHERE id = $1")`: `none` when the query
errors (no row), `some text` otherwise. -/
def getSongText_handler (bind : Except String Pagination)
    (fetched : Option String) : TextResponse :=
  match bind with
  | .error e => .badRequest e
  | .ok p =>
    match fetched with
    | none => .notFound "Song not found"
    | some text =>
      if text = "" then .notFound "No text found for this song"
      else
        let verses := splitVerses text
        let start := getSongText_start p
        let e := getSongText_end p
        if start ≥ (verses.length : Int) then .ok []
        else
          let e2 := if e > (verses.length : Int) then (verses.length : Int) else e
          goSlice verses start e2

/-- Row produced by createSong's INSERT (src/main.go lines 282-283,
src/unnamed/part_000 lines 177-178): only title, artist, release_date,
text and link are inserted; the id is assigned by storage and group_name
is never written, so the new row's group name is NULL. -/
def createSong_row (newId : Int) (song : Song) : Song :=
  { id := newId
    title := song.title
    artist := song.artist
    releaseDate := song.releaseDate
    text := song.text
    link := song.link
    groupName := none }

/-- Effect of updateSong's UPDATE on the row keyed by id (src/main.go lines
240-241, src/unnamed/part_000 lines 143-144): SET title, artist,
release_date, text, link — the id key and the group_name column are not
touched. -/
def updateSong_row (row : Song) (song : Song) : Song :=
  { row with
    title := song.title
    artist := song.artist
    releaseDate := song.releaseDate
    text := song.text
    link := song.link }

/-- Claim C4: verse segmentation is the pure split of the text on the
literal delimiter of two newlines, with no trimming, normalization or
empty-verse filtering: it sends the three-verse example to exactly its
three verses, preserves a delimiter-adjacent empty segment positionally,
keeps surrounding whitespace, and sends the empty text to a single empty
verse. -/
theorem splitVerses_spec :
    splitVerses "A\n\nB\n\nC" = ["A", "B", "C"] ∧
    splitVerses "A\n\n\n\nB" = ["A", "", "B"] ∧
    splitVerses " A \n\nB " = [" A ", "B "] ∧
    splitVerses "" = [""] := by
  refine ⟨?_, ?_, ?_, ?_⟩ <;> decide

/-- Claim C1 (counterexample): getSongText applies no page normalization:
with raw page 0 and limit 1 the computed start is -1, the slice expression
faults (HTTP 500 through Recovery), and the outcome differs from the one
that page = 1 would give. -/
theorem getSongText_page_not_normalized :
    getSongText_start ⟨1, 0⟩ = -1 ∧
    getSongText_handler (Except.ok ⟨1, 0⟩) (some "A\n\nB") = TextResponse.crash ∧
    getSongText_handler (Except.ok ⟨1, 1⟩) (some "A\n\nB") = TextResponse.ok ["A"] := by
  refine ⟨by decide, by decide, by decide⟩

/-- Claim C1 (amended): the list operation treats page ≤ 0 as page = 1 and
its computed offset (page - 1) * limit is never negative; the get-text
operation applies no page normalization, and its computed start is negative
whenever page ≤ 0 and limit > 0. -/
theorem pagination_offset_nonneg (p : Pagination) :
    0 ≤ (getSongs_params p).2 ∧
    (p.page ≤ 0 → 0 < p.limit → getSongText_start p < 0) := by
  constructor
  · simp only [getSongs_params]
    split <;> split
    · simp
    · simp
    · apply mul_nonneg <;> omega
    · apply mul_nonneg <;> omega
  · intro hpage hlimit
    have h1 : p.page - 1 < 0 := by omega
    exact mul_neg_of_neg_of_pos h1 hlimit

/-- Witness for the amended claim C1 at limit = 1, page = 0. -/
theorem pagination_offset_nonneg_witness :
    0 ≤ (getSongs_params ⟨1, 0⟩).2 ∧
    ((0 : Int) ≤ 0 ∧ (0 : Int) < 1 ∧ getSongText_start ⟨1, 0⟩ < 0) :=
  ⟨(pagination_offset_nonneg ⟨1, 0⟩).1,
   by decide, by decide,
   (pagination_offset_nonneg ⟨1, 0⟩).2 (by decide) (by decide)⟩

/-- Claim C2 (counterexample): in src/unnamed/part_000's getSongs, a raw
negative limit is not replaced by 10: limit = -1 stays -1 in the store
query. -/
theorem getSongs_v2_negative_limit :
    (getSongs_params_v2 ⟨-1, 1⟩).1 = -1 ∧ ((-1 : Int) ≠ 10) := by
  refine ⟨by decide, by decide⟩

/-- Claim C2 (amended): in src/main.go's getSongs every raw limit ≤ 0
(absent, zero or negative) yields effective limit 10; in
src/unnamed/part_000's getSongs only limit = 0 yields 10, while a negative
limit is passed to the store query unchanged. -/
theorem getSongs_default_limit (p : Pagination) :
    (p.limit ≤ 0 → (getSongs_params p).1 = 10) ∧
    (p.limit = 0 → (getSongs_params_v2 p).1 = 10) ∧
    (p.limit < 0 → (getSongs_params_v2 p).1 = p.limit) := by
  refine ⟨fun h => ?_, fun h => ?_, fun h => ?_⟩ <;>
    simp only [getSongs_params, getSongs_params_v2] <;> split <;> omega

/-- Witness for the amended claim C2 at limits -2 and 0. -/
theorem getSongs_default_limit_witness :
    ((-2 : Int) ≤ 0 ∧ (getSongs_params ⟨-2, 1⟩).1 = 10) ∧
    ((0 : Int) = 0 ∧ (getSongs_params_v2 ⟨0, 1⟩).1 = 10) ∧
    ((-2 : Int) < 0 ∧ (getSongs_params_v2 ⟨-2, 1⟩).1 = -2) :=
  ⟨⟨by decide, (getSongs_default_limit ⟨-2, 1⟩).1 (by decide)⟩,
   ⟨by decide, (getSongs_default_limit ⟨0, 1⟩).2.1 (by decide)⟩,
   ⟨by decide, (getSongs_default_limit ⟨-2, 1⟩).2.2 (by decide)⟩⟩

/-- Claim C6 (counterexample): updateSong's UPDATE does not overwrite every
field except the identifier: a row whose group name is "G", updated with a
payload carrying group name "H", does not become the payload row — its
group name stays "G". -/
theorem updateSong_not_full_overwrite :
    updateSong_row ⟨1, "t", "a", "d", "x", "l", some "G"⟩
        ⟨1, "T", "A", "D", "X", "L", some "H"⟩ ≠
      ⟨1, "T", "A", "D", "X", "L", some "H"⟩ := by
  decide

/-- Claim C6 (amended): updateSong overwrites title, artist, release date,
text and link with the payload's values; the identifier and the group name
of the row stay fixed. -/
theorem updateSong_row_spec (row song : Song) :
    (updateSong_row row song).id = row.id ∧
    (updateSong_row row song).title = song.title ∧
    (updateSong_row row song).artist = song.artist ∧
    (updateSong_row row song).releaseDate = song.releaseDate ∧
    (updateSong_row row song).text = song.text ∧
    (updateSong_row row song).link = song.link ∧
    (updateSong_row row song).groupName = row.groupName :=
  ⟨rfl, rfl, rfl, rfl, rfl, rfl, rfl⟩

/-- Claim C8: neither createSong's INSERT nor updateSong's UPDATE writes
the group_name column: a created row has an absent (NULL) group name
whatever the payload carried, and an update leaves the row's group name
unchanged. -/
theorem group_name_never_written (newId : Int) (song row : Song) :
    (createSong_row newId song).groupName = none ∧
    (updateSong_row row song).groupName = row.groupName :=
  ⟨rfl, rfl⟩

/-- Claim C7: the list handler never answers 404, and a successful store
query with an empty result set yields 200 with the empty array. -/
theorem getSongs_no_404 :
    (∀ b q, (getSongs_handler b q).1 ≠ 404) ∧
    (∀ p q, q (getSongs_params p).1 (getSongs_params p).2 = Except.ok [] →
      getSongs_handler (Except.ok p) q = (200, Sum.inl [])) := by
  constructor
  · intro b q
    cases b with
    | error e => simp [getSongs_handler]
    | ok p =>
      rcases hq : q (getSongs_params p).1 (getSongs_params p).2 with e | rows <;>
        simp [getSongs_handler, hq]
  · intro p q h
    simp [getSongs_handler, h]

/-- Witness for claim C7: empty store result, default pagination. -/
theorem getSongs_no_404_witness :
    ((fun _ _ => Except.ok [] : Int → Int → Except String (List Song))
        (getSongs_params ⟨0, 0⟩).1 (getSongs_params ⟨0, 0⟩).2 = Except.ok []) ∧
    getSongs_handler (Except.ok ⟨0, 0⟩)
        (fun _ _ => Except.ok [] : Int → Int → Except String (List Song)) =
      (200, Sum.inl []) ∧
    (getSongs_handler (Except.ok ⟨0, 0⟩)
        (fun _ _ => Except.ok [] : Int → Int → Except String (List Song))).1 ≠ 404 :=
  ⟨rfl, getSongs_no_404.2 ⟨0, 0⟩ _ rfl, getSongs_no_404.1 _ _⟩

/-- Claim C10 (counterexample): the two getSongs versions are not
equivalent: at raw limit -1 they compute different effective (limit,
offset) pairs, and against a store that rejects the negative limit their
responses differ. -/
theorem getSongs_versions_differ :
    getSongs_params ⟨-1, 1⟩ ≠ getSongs_params_v2 ⟨-1, 1⟩ ∧
    getSongs_handler (Except.ok ⟨-1, 1⟩)
        (fun l _ => if l = 10 then Except.ok [] else Except.error "limit must not be negative") ≠
      getSongs_handler_v2 (Except.ok ⟨-1, 1⟩)
        (fun l _ => if l = 10 then Except.ok [] else Except.error "limit must not be negative") := by
  refine ⟨by decide, by decide⟩

/-- Claim C10 (amended): for every pagination input with limit ≥ 0, the two
getSongs versions compute the same effective (limit, offset) pair and give
the same response for every store outcome; they diverge at negative
limits. -/
theorem getSongs_versions_agree (p : Pagination) (hl : 0 ≤ p.limit) :
    getSongs_params p = getSongs_params_v2 p ∧
    ∀ q, getSongs_handler (Except.ok p) q = getSongs_handler_v2 (Except.ok p) q := by
  have hp : getSongs_params p = getSongs_params_v2 p := by
    simp only [getSongs_params, getSongs_params_v2]
    by_cases h0 : p.limit = 0
    · have h1 : p.limit ≤ 0 := by omega
      simp [h0, h1]
    · have h1 : ¬ p.limit ≤ 0 := by omega
      simp [h0, h1]
  refine ⟨hp, fun q => ?_⟩
  simp only [getSongs_handler, getSongs_handler_v2, hp]

/-- Witness for the amended claim C10 at limit = 5, page = 2. -/
theorem getSongs_versions_agree_witness :
    (0 : Int) ≤ 5 ∧
    getSongs_params ⟨5, 2⟩ = getSongs_params_v2 ⟨5, 2⟩ ∧
    getSongs_handler (Except.ok ⟨5, 2⟩) (fun _ _ => Except.ok []) =
      getSongs_handler_v2 (Except.ok ⟨5, 2⟩) (fun _ _ => Except.ok []) :=
  ⟨by decide, (getSongs_versions_agree ⟨5, 2⟩ (by decide)).1,
   (getSongs_versions_agree ⟨5, 2⟩ (by decide)).2 _⟩

/-- Helper: on an existing song with non-empty text, whenever the computed
start is non-negative and the limit is non-negative, the get-text handler
answers 200 with the slice of the verse list from start to end clamped at
the verse count (the empty list when start is past the end). -/
theorem getSongText_handler_eq_slice (p : Pagination) (text : String)
    (hne : text ≠ "") (hs : 0 ≤ getSongText_start p) (hl : 0 ≤ p.limit) :
    getSongText_handler (Except.ok p) (some text) =
      TextResponse.ok (((splitVerses text).drop (getSongText_start p).toNat).take
        (min (getSongText_end p) ((splitVerses text).length : Int) -
          getSongText_start p).toNat) := by
  have he : getSongText_end p = getSongText_start p + p.limit := rfl
  simp only [getSongText_handler, if_neg hne]
  split
  · next hge =>
    have hd : (splitVerses text).length ≤ (getSongText_start p).toNat := by omega
    rw [List.drop_eq_nil_of_le hd, List.take_nil]
  · next hlt =>
    have hmin : (if getSongText_end p > ((splitVerses text).length : Int)
        then ((splitVerses text).length : Int) else getSongText_end p) =
        min (getSongText_end p) ((splitVerses text).length : Int) := by
      split <;> omega
    rw [hmin]
    unfold goSlice
    rw [if_pos ⟨hs, by omega, by omega⟩]

/-- Claim C3: a get-text request with zero (or absent) limit on an existing
song with non-empty text gets no substituted default: the computed range is
zero-width (start = end) and the response is 200 with the empty array. -/
theorem getSongText_zero_limit (page : Int) (text : String) (h : text ≠ "") :
    getSongText_start ⟨0, page⟩ = getSongText_end ⟨0, page⟩ ∧
    getSongText_handler (Except.ok ⟨0, page⟩) (some text) = TextResponse.ok [] := by
  have hs : getSongText_start ⟨0, page⟩ = 0 := by
    simp [getSongText_start]
  have he : getSongText_end ⟨0, page⟩ = 0 := by
    simp [getSongText_end, getSongText_start]
  refine ⟨by omega, ?_⟩
  rw [getSongText_handler_eq_slice ⟨0, page⟩ text h (by omega) (le_refl 0)]
  rw [hs, he]
  have hmin : min (0 : Int) ((splitVerses text).length : Int) = 0 := by omega
  rw [hmin]
  simp

/-- Witness for claim C3 at page = 5 on a two-verse text. -/
theorem getSongText_zero_limit_witness :
    ("A\n\nB" ≠ "") ∧
    (getSongText_start ⟨0, 5⟩ = getSongText_end ⟨0, 5⟩ ∧
      getSongText_handler (Except.ok ⟨0, 5⟩) (some "A\n\nB") = TextResponse.ok []) :=
  ⟨by decide, getSongText_zero_limit 5 "A\n\nB" (by decide)⟩

/-- Claim C5 (counterexample): for a get-text request with page = 0 and
limit = 2 on a three-verse song, start = -2 is below the verse count, yet
the response is not a 200 with a verse sub-sequence: the slice expression
faults (HTTP 500 through Recovery). -/
theorem getSongText_negative_start_crash :
    getSongText_handler (Except.ok ⟨2, 0⟩) (some "A\n\nB\n\nC") = TextResponse.crash := by
  decide

/-- Claim C5 (amended): for every get-text request on an existing song with
non-empty text, with page ≥ 1 and limit ≥ 0, start = (page-1)*limit and
end = start+limit: if start ≥ the verse count the response is 200 with the
empty array; otherwise end is clamped to the verse count when it exceeds it
and the response is 200 with the verse sub-sequence from start to the
clamped end. -/
theorem getSongText_range_spec (p : Pagination) (text : String) (hne : text ≠ "")
    (hpage : 1 ≤ p.page) (hlimit : 0 ≤ p.limit) :
    (((splitVerses text).length : Int) ≤ getSongText_start p →
      getSongText_handler (Except.ok p) (some text) = TextResponse.ok []) ∧
    (getSongText_start p < ((splitVerses text).length : Int) →
      getSongText_handler (Except.ok p) (some text) =
        TextResponse.ok (((splitVerses text).drop (getSongText_start p).toNat).take
          (min (getSongText_end p) ((splitVerses text).length : Int) -
            getSongText_start p).toNat)) := by
  have hs : 0 ≤ getSongText_start p := mul_nonneg (by omega) hlimit
  have heq := getSongText_handler_eq_slice p text hne hs hlimit
  constructor
  · intro hge
    rw [heq]
    have hd : (splitVerses text).length ≤ (getSongText_start p).toNat := by omega
    rw [List.drop_eq_nil_of_le hd, List.take_nil]
  · intro _
    exact heq

/-- Witness for the amended claim C5: page = 1, limit = 2 on a three-verse
text returns the first two verses. -/
theorem getSongText_range_spec_witness :
    ("A\n\nB\n\nC" ≠ "" ∧ (1 : Int) ≤ 1 ∧ (0 : Int) ≤ 2) ∧
    getSongText_handler (Except.ok ⟨2, 1⟩) (some "A\n\nB\n\nC") =
      TextResponse.ok ["A", "B"] := by
  refine ⟨⟨by decide, by decide, by decide⟩, ?_⟩
  have h := (getSongText_range_spec ⟨2, 1⟩ "A\n\nB\n\nC"
    (by decide) (by decide) (by decide)).2 (by decide)
  rw [h]
  decide

/-- Claim C9: a get-text request on an existing song with non-empty text,
with page ≥ 1 and limit ≥ 0, returns at most limit verses. -/
theorem getSongText_at_most_limit (p : Pagination) (text : String) (hne : text ≠ "")
    (hpage : 1 ≤ p.page) (hlimit : 0 ≤ p.limit) (vs : List String)
    (h : getSongText_handler (Except.ok p) (some text) = TextResponse.ok vs) :
    (vs.length : Int) ≤ p.limit := by
  have hs : 0 ≤ getSongText_start p := mul_nonneg (by omega) hlimit
  rw [getSongText_handler_eq_slice p text hne hs hlimit] at h
  injection h with h'
  have hlen : vs.length ≤ (min (getSongText_end p) ((splitVerses text).length : Int) -
      getSongText_start p).toNat := by
    rw [← h']
    exact List.length_take_le _ _
  have he : getSongText_end p = getSongText_start p + p.limit := rfl
  omega

/-- Witness for claim C9: page = 1, limit = 1 on a two-verse text returns
one verse, at most the limit. -/
theorem getSongText_at_most_limit_witness :
    ("A\n\nB" ≠ "" ∧ (1 : Int) ≤ 1 ∧ (0 : Int) ≤ 1 ∧
      getSongText_handler (Except.ok ⟨1, 1⟩) (some "A\n\nB") = TextResponse.ok ["A"]) ∧
    ((["A"] : List String).length : Int) ≤ (1 : Int) :=
  ⟨⟨by decide, by decide, by decide, by decide⟩,
   getSongText_at_most_limit ⟨1, 1⟩ "A\n\nB" (by decide) (by decide) (by decide)
     ["A"] (by decide)⟩
